import Mathlib

/-
Verification of the slide-to-scene synchronization engine of the netless-app
repository (packages/app-slide/src/utils/slide.ts and
packages/app-embedded-page/src/index.ts), via a shallow embedding in Lean.

The stateful TypeScript code is embedded as explicit state passing: each
operation takes the pre-state and returns the post-state together with the
list of external calls it performs (renderer render calls, room scene
operations, posted SDK messages), in order.
-/

namespace NetlessApp

/-- Modelled from the spec: the `clamp` helper imported from
`app-slide/src/utils/helpers.ts` is not among the provided sources; the spec
states that the clamped navigation target is `max(1, min(p, slideCount))`,
so `clamp page 1 slideCount` is defined accordingly. -/
def clamp (x lo hi : Int) : Int := max lo (min x hi)

/-- The mutable state of `SlideController` relevant to navigation: the private
field `targetingPage`, initialized to `-1` at construction. -/
structure ControllerState where
  targetingPage : Int
  deriving DecidableEq, Repr

/-- The state of a freshly constructed `SlideController`: `targetingPage = -1`. -/
def initialControllerState : ControllerState := { targetingPage := -1 }

/-- `SlideController.isReady()`: `this.slide.slideCount > 0`. -/
def isReady (slideCount : Int) : Bool := slideCount > 0

/-- `SlideController.jumpToPage(page)`. Returns the post-state and the list of
arguments of the `renderSlide` calls issued (the empty list when the method
returns early, a single one-element call otherwise):

```ts
jumpToPage(page: number) {
  if (!this.isReady()) return;
  page = clamp(page, 1, this.slide.slideCount);
  if (page === this.targetingPage) return;
  this.targetingPage = page;
  this.slide.renderSlide(page);
}
```
-/
def jumpToPage (slideCount : Int) (s : ControllerState) (page : Int) :
    ControllerState × List Int :=
  if isReady slideCount then
    let p := clamp page 1 slideCount
    if p = s.targetingPage then (s, [])
    else ({ targetingPage := p }, [p])
  else (s, [])

/-- The renderer lifecycle events the `SlideController` constructor subscribes
to (SLIDE_EVENTS). -/
inductive SlideEvent where
  | slideChange (page : Int)
  | renderStart
  | renderEnd
  | mainSeqStepStart
  | mainSeqStepEnd
  | renderError
  | syncDispatch
  deriving DecidableEq, Repr

/-- The calls an event handler of the `SlideController` constructor can make:
the caller-provided callbacks, a `console.warn` log, and a renderer
`renderSlide` call (listed so that "the handler issues no render call" is a
statement about this type, not vacuous by omission). -/
inductive Callback where
  | onPageChanged (page : Int)
  | onTransitionStart
  | onTransitionEnd
  | onDispatchSyncEvent
  | logWarn
  | renderSlide (page : Int)
  deriving DecidableEq, Repr

/-- The event handlers registered by the `SlideController` constructor, as the
list of calls each one makes, in order. `renderError` is handled by
`{ console.warn("[Slide] render error", error); onTransitionEnd(); }`; no
handler assigns `targetingPage` or calls `renderSlide`. -/
def handleEvent : SlideEvent → List Callback
  | SlideEvent.slideChange p => [Callback.onPageChanged p]
  | SlideEvent.renderStart => [Callback.onTransitionStart]
  | SlideEvent.renderEnd => [Callback.onTransitionEnd]
  | SlideEvent.mainSeqStepStart => [Callback.onTransitionStart]
  | SlideEvent.mainSeqStepEnd => [Callback.onTransitionEnd]
  | SlideEvent.renderError => [Callback.logWarn, Callback.onTransitionEnd]
  | SlideEvent.syncDispatch => [Callback.onDispatchSyncEvent]

/-- Whether a handler call is a renderer `renderSlide` call. -/
def isRenderSlideCall : Callback → Bool
  | Callback.renderSlide _ => true
  | _ => false

/-- An input processed by the controller: either a `jumpToPage` call from the
caller or a renderer lifecycle event. -/
inductive ControllerInput where
  | jump (page : Int)
  | event (e : SlideEvent)
  deriving DecidableEq, Repr

/-- One controller step on `targetingPage`: `jumpToPage` follows the method
body; a renderer event leaves the state untouched and issues no `renderSlide`
call, because no registered handler assigns `targetingPage` or renders. -/
def stepInput (slideCount : Int) (s : ControllerState) :
    ControllerInput → ControllerState × List Int
  | ControllerInput.jump p => jumpToPage slideCount s p
  | ControllerInput.event _ => (s, [])

/-- Run a sequence of controller inputs, threading the state and concatenating
the issued `renderSlide` call arguments. -/
def runInputs (slideCount : Int) :
    ControllerState → List ControllerInput → ControllerState × List Int
  | s, [] => (s, [])
  | s, i :: is =>
    let r1 := stepInput slideCount s i
    let r2 := runInputs slideCount r1.1 is
    (r2.1, r1.2 ++ r2.2)

/- ------------------------------------------------------------------ -/
/- Helper lemmas about jumpToPage, shared across the claims below.    -/
/- ------------------------------------------------------------------ -/

theorem isReady_true {slideCount : Int} (h : 0 < slideCount) :
    isReady slideCount = true := by
  simp [isReady]; exact h

theorem isReady_false {slideCount : Int} (h : slideCount ≤ 0) :
    isReady slideCount = false := by
  simp [isReady]; omega

theorem jumpToPage_of_not_ready {slideCount : Int} (s : ControllerState)
    (p : Int) (h : slideCount ≤ 0) : jumpToPage slideCount s p = (s, []) := by
  simp [jumpToPage, isReady_false h]

theorem jumpToPage_of_same_target {slideCount : Int} {s : ControllerState}
    {p : Int} (h : clamp p 1 slideCount = s.targetingPage) :
    jumpToPage slideCount s p = (s, []) := by
  by_cases hr : 0 < slideCount
  · simp [jumpToPage, isReady_true hr, h]
  · exact jumpToPage_of_not_ready s p (by omega)

theorem jumpToPage_targeting {slideCount : Int} (s : ControllerState)
    (p : Int) (h : 0 < slideCount) :
    ((jumpToPage slideCount s p).1).targetingPage = clamp p 1 slideCount := by
  simp only [jumpToPage, isReady_true h, if_true]
  by_cases he : clamp p 1 slideCount = s.targetingPage
  · simp [he]
  · simp [he]

theorem jumpToPage_of_new_target {slideCount : Int} {s : ControllerState}
    {p : Int} (hr : 0 < slideCount)
    (hne : clamp p 1 slideCount ≠ s.targetingPage) :
    jumpToPage slideCount s p
      = ({ targetingPage := clamp p 1 slideCount }, [clamp p 1 slideCount]) := by
  simp [jumpToPage, isReady_true hr, hne]

theorem jumpToPage_fixpoint (slideCount : Int) (s : ControllerState)
    (p : Int) :
    jumpToPage slideCount ((jumpToPage slideCount s p).1) p
      = ((jumpToPage slideCount s p).1, []) := by
  by_cases hr : 0 < slideCount
  · exact jumpToPage_of_same_target (jumpToPage_targeting s p hr).symm
  · have h0 : slideCount ≤ 0 := by omega
    rw [jumpToPage_of_not_ready s p h0]
    exact jumpToPage_of_not_ready s p h0

theorem runInputs_of_fixpoint {slideCount : Int} {s : ControllerState}
    {p : Int} (hfix : jumpToPage slideCount s p = (s, [])) (m : Nat) :
    runInputs slideCount s
      (List.replicate m (ControllerInput.jump p)) = (s, []) := by
  induction m with
  | zero => rfl
  | succ k ih =>
    rw [List.replicate_succ]
    simp [runInputs, stepInput, hfix, ih]

theorem runInputs_of_all_same_target {slideCount : Int} {s : ControllerState}
    {inputs : List ControllerInput}
    (h : ∀ q, ControllerInput.jump q ∈ inputs →
      clamp q 1 slideCount = s.targetingPage) :
    runInputs slideCount s inputs = (s, []) := by
  induction inputs with
  | nil => rfl
  | cons i is ih =>
    have hstep : stepInput slideCount s i = (s, []) := by
      cases i with
      | jump q =>
        exact jumpToPage_of_same_target (h q (List.mem_cons_self _ _))
      | event e => rfl
    have hrest : runInputs slideCount s is = (s, []) := by
      exact ih (fun q hq => h q (List.mem_cons_of_mem _ hq))
    simp [runInputs, hstep, hrest]

/- ------------------------------------------------------------------ -/
/- Claims                                                             -/
/- ------------------------------------------------------------------ -/

/-- Claim C1. Redirection, last write wins: with `slideCount > 0`, after
`jumpToPage(a)` a call `jumpToPage(b)` whose clamped target differs from the
clamped `a` issues exactly one additional `renderSlide` call, with the clamped
`b` as its argument, and leaves `targetingPage` equal to the clamped `b`,
never `a`. -/
theorem jumpToPage_last_write_wins (slideCount a b : Int)
    (s : ControllerState) (hready : 0 < slideCount)
    (hne : clamp b 1 slideCount ≠ clamp a 1 slideCount) :
    (jumpToPage slideCount ((jumpToPage slideCount s a).1) b).2
        = [clamp b 1 slideCount] ∧
    ((jumpToPage slideCount ((jumpToPage slideCount s a).1) b).1).targetingPage
        = clamp b 1 slideCount := by
  have h1 : ((jumpToPage slideCount s a).1).targetingPage
      = clamp a 1 slideCount := jumpToPage_targeting s a hready
  have hne2 : clamp b 1 slideCount
      ≠ ((jumpToPage slideCount s a).1).targetingPage := by rw [h1]; exact hne
  rw [jumpToPage_of_new_target hready hne2]
  exact ⟨rfl, rfl⟩

/-- Witness for C1: deck of 5 pages, `jumpToPage 2` then `jumpToPage 7`
(clamped to 5): the second call renders exactly page 5 and targets page 5. -/
theorem jumpToPage_last_write_wins_witness :
    (jumpToPage 5 ((jumpToPage 5 initialControllerState 2).1) 7).2
        = [clamp 7 1 5] ∧
    ((jumpToPage 5 ((jumpToPage 5 initialControllerState 2).1) 7).1).targetingPage
        = clamp 7 1 5 :=
  jumpToPage_last_write_wins 5 2 7 initialControllerState (by decide)
    (by decide)

/-- Claim C3. Clamping: with `slideCount > 0`, `jumpToPage(p)` records
`max 1 (min p slideCount)` as the targeting page, and when it issues a render
call its argument is that same clamped value; an out-of-range `p` produces no
error (the operation is total and returns normally in every case). -/
theorem jumpToPage_clamps (slideCount p : Int) (s : ControllerState)
    (h : 0 < slideCount) :
    ((jumpToPage slideCount s p).1).targetingPage
        = max 1 (min p slideCount) ∧
    ((jumpToPage slideCount s p).2 = [] ∨
      (jumpToPage slideCount s p).2 = [max 1 (min p slideCount)]) := by
  constructor
  · exact jumpToPage_targeting s p h
  · by_cases he : clamp p 1 slideCount = s.targetingPage
    · left
      rw [jumpToPage_of_same_target he]
    · right
      rw [jumpToPage_of_new_target h he]
      rfl

/-- Witness for C3: deck of 5 pages, request page 99: the recorded target is
`max 1 (min 99 5) = 5` and the render call carries 5. -/
theorem jumpToPage_clamps_witness :
    ((jumpToPage 5 initialControllerState 99).1).targetingPage
        = max 1 (min 99 5) ∧
    ((jumpToPage 5 initialControllerState 99).2 = [] ∨
      (jumpToPage 5 initialControllerState 99).2 = [max 1 (min 99 5)]) :=
  jumpToPage_clamps 5 99 initialControllerState (by decide)

/-- Claim C4. Idempotent duplicate suppression: while the clamped target of
`p` equals the current `targetingPage`, any number of `jumpToPage(p)` calls
issues no `renderSlide` call and leaves the state unchanged; and in general a
single call and `n ≥ 1` repeated calls with the same argument produce exactly
the same state and the same renderer interaction. -/
theorem jumpToPage_idempotent (slideCount p : Int) (s : ControllerState)
    (n : Nat) :
    (clamp p 1 slideCount = s.targetingPage →
      runInputs slideCount s
        (List.replicate n (ControllerInput.jump p)) = (s, [])) ∧
    (1 ≤ n →
      runInputs slideCount s (List.replicate n (ControllerInput.jump p))
        = jumpToPage slideCount s p) := by
  constructor
  · intro h
    exact runInputs_of_fixpoint (jumpToPage_of_same_target h) n
  · intro hn
    obtain ⟨m, rfl⟩ : ∃ m, n = m + 1 := ⟨n - 1, by omega⟩
    rw [List.replicate_succ]
    simp only [runInputs, stepInput]
    rw [runInputs_of_fixpoint (jumpToPage_fixpoint slideCount s p) m]
    simp

/-- Witness for C4: deck of 5 pages. With `targetingPage = 3`, three calls of
`jumpToPage 3` are a complete no-op; and from the initial state, two calls of
`jumpToPage 3` equal a single one. -/
theorem jumpToPage_idempotent_witness :
    runInputs 5 { targetingPage := 3 }
        (List.replicate 3 (ControllerInput.jump 3))
      = ({ targetingPage := 3 }, []) ∧
    runInputs 5 initialControllerState
        (List.replicate 2 (ControllerInput.jump 3))
      = jumpToPage 5 initialControllerState 3 :=
  ⟨(jumpToPage_idempotent 5 3 { targetingPage := 3 } 3).1 (by decide),
   (jumpToPage_idempotent 5 3 initialControllerState 2).2 (by decide)⟩

/-- Claim C5. Not-ready guard: when `slideCount` is not positive,
`jumpToPage(p)` returns with no `renderSlide` call and an unchanged state —
the request is dropped, not queued, and no error is raised. -/
theorem jumpToPage_not_ready_noop (slideCount p : Int) (s : ControllerState)
    (h : slideCount ≤ 0) : jumpToPage slideCount s p = (s, []) :=
  jumpToPage_of_not_ready s p h

/-- Witness for C5: with `slideCount = 0`, `jumpToPage 3` does nothing. -/
theorem jumpToPage_not_ready_noop_witness :
    jumpToPage 0 initialControllerState 3 = (initialControllerState, []) :=
  jumpToPage_not_ready_noop 0 3 initialControllerState (by decide)

/-- Claim C7. Render errors are non-fatal and end the transition: the
`renderError` handler logs a warning and invokes the transition-end callback
(returning the navigation machine to Idle), and none of its calls is a
`renderSlide` retry; it is an ordinary returning handler, so the error is not
propagated. -/
theorem renderError_ends_transition_without_retry :
    handleEvent SlideEvent.renderError
        = [Callback.logWarn, Callback.onTransitionEnd] ∧
    Callback.onTransitionEnd ∈ handleEvent SlideEvent.renderError ∧
    (handleEvent SlideEvent.renderError).all
        (fun c => !(isRenderSlideCall c)) = true := by
  refine ⟨rfl, ?_, ?_⟩ <;> decide

/-- Claim C10. Duplicate suppression outlives the transition:
`targetingPage` starts at `-1`; renderer events (`renderEnd`, `renderError`
included) never change the controller state and issue no render; a
`jumpToPage` call that issues no render leaves the state unchanged (so only
render-issuing calls overwrite `targetingPage`); any mixed sequence of events
and jumps whose clamped targets all equal the current `targetingPage` is a
complete no-op; and from the initial state, the first `jumpToPage` after
readiness always issues a render, because every clamped target is at least 1
and so differs from `-1`. -/
theorem targetingPage_persistence :
    initialControllerState.targetingPage = -1 ∧
    (∀ (slideCount : Int) (s : ControllerState) (e : SlideEvent),
      stepInput slideCount s (ControllerInput.event e) = (s, [])) ∧
    (∀ (slideCount p : Int) (s : ControllerState),
      (jumpToPage slideCount s p).2 = [] → (jumpToPage slideCount s p).1 = s) ∧
    (∀ (slideCount : Int) (s : ControllerState)
        (inputs : List ControllerInput),
      (∀ q, ControllerInput.jump q ∈ inputs →
        clamp q 1 slideCount = s.targetingPage) →
      runInputs slideCount s inputs = (s, [])) ∧
    (∀ (slideCount p : Int), 0 < slideCount →
      (jumpToPage slideCount initialControllerState p).2
        = [clamp p 1 slideCount]) := by
  refine ⟨rfl, fun _ _ _ => rfl, ?_, ?_, ?_⟩
  · intro slideCount p s hnil
    by_cases hr : 0 < slideCount
    · by_cases he : clamp p 1 slideCount = s.targetingPage
      · rw [jumpToPage_of_same_target he]
      · rw [jumpToPage_of_new_target hr he] at hnil
        simp at hnil
    · rw [jumpToPage_of_not_ready s p (by omega)]
  · intro slideCount s inputs h
    exact runInputs_of_all_same_target h
  · intro slideCount p hr
    have hne : clamp p 1 slideCount ≠ initialControllerState.targetingPage := by
      have h1 : (1 : Int) ≤ max 1 (min p slideCount) := le_max_left _ _
      simp only [initialControllerState, clamp]
      omega
    rw [jumpToPage_of_new_target hr hne]

/-- Witness for C10: a render-free `jumpToPage` (not ready) leaves the state
unchanged; with `targetingPage = 3` on a 5-page deck, a jump to 3, a
`renderEnd` event and another jump to 3 are a complete no-op; and the first
jump from the initial state renders its clamped target. -/
theorem targetingPage_persistence_witness :
    (jumpToPage 0 initialControllerState 3).1 = initialControllerState ∧
    runInputs 5 { targetingPage := 3 }
        [ControllerInput.jump 3, ControllerInput.event SlideEvent.renderEnd,
         ControllerInput.jump 3]
      = ({ targetingPage := 3 }, []) ∧
    (jumpToPage 5 initialControllerState 2).2 = [clamp 2 1 5] :=
  ⟨targetingPage_persistence.2.2.1 0 3 initialControllerState (by decide),
   targetingPage_persistence.2.2.2.1 5 { targetingPage := 3 } _
     (by
       intro q hq
       simp only [List.mem_cons, List.not_mem_nil, or_false] at hq
       rcases hq with hq | hq | hq
       · cases hq; decide
       · cases hq
       · cases hq; decide),
   targetingPage_persistence.2.2.2.2 5 2 (by decide)⟩

/- ------------------------------------------------------------------ -/
/- Scene reconciler: syncSceneWithSlide (app-slide/src/utils/slide.ts) -/
/- ------------------------------------------------------------------ -/

/-- The scene-path type reported by the room accessor `scenePathType`
(white-web-sdk): `none` means no entry at that path. -/
inductive ScenePathType where
  | none
  | page
  | dir
  deriving DecidableEq, Repr

/-- A mutating call made on the room by the reconciler, in order. -/
inductive RoomAction where
  | removeScenes (path : String)
  | putScenes (path : String) (names : List String)
  | setScenePath (path : String)
  deriving DecidableEq, Repr

/-- The slide fields `syncSceneWithSlide` reads: `slideCount` and
`slideState.currentSlideIndex`, where `Option.none` embeds the
null/undefined index of a renderer that has not finished initializing. -/
structure SlideModel where
  slideCount : Nat
  currentSlideIndex : Option Nat
  deriving DecidableEq, Repr

/-- The scene names built by the repair loop
`for (let i = 1; i <= count; ++i) scenes.push({ name: ` + "`${i}`" + ` })`:
the decimal names "1", "2", ..., "count". -/
def sceneNames (count : Nat) : List String :=
  (List.range count).map (fun i => toString (i + 1))

/-- `syncSceneWithSlide(room, slide, baseScenePath)` as the ordered list of
room calls it performs, parameterized by the room's `scenePathType` answer:

```ts
const page = slide.slideState.currentSlideIndex;
if (page == null) return;
const scenePath = [baseScenePath, page].join("/");
if (room.scenePathType(scenePath) === "none") {
  room.removeScenes(baseScenePath);
  const count = slide.slideCount;
  const scenes = [];
  for (let i = 1; i <= count; ++i) scenes.push({ name: `${i}` });
  room.putScenes(baseScenePath, scenes);
}
room.setScenePath(scenePath);
```
-/
def syncSceneWithSlide (scenePathType : String → ScenePathType)
    (slide : SlideModel) (baseScenePath : String) : List RoomAction :=
  match slide.currentSlideIndex with
  | Option.none => []
  | Option.some page =>
    let scenePath := baseScenePath ++ "/" ++ toString page
    let repair :=
      if scenePathType scenePath = ScenePathType.none then
        [RoomAction.removeScenes baseScenePath,
         RoomAction.putScenes baseScenePath (sceneNames slide.slideCount)]
      else []
    repair ++ [RoomAction.setScenePath scenePath]

theorem sceneNames_length (n : Nat) : (sceneNames n).length = n := by
  simp [sceneNames]

theorem sceneNames_get (n : Nat) (j : Fin (sceneNames n).length) :
    (sceneNames n).get j = toString (j.val + 1) := by
  have hj : j.val < n := by
    have h1 := j.isLt
    have h2 := sceneNames_length n
    omega
  simp [sceneNames, List.get_eq_getElem]

/-- Claim C2. Scene repair is all-or-nothing: with current page `k`, when the
room reports `none` for `basePath ++ "/" ++ k`, the reconciler first removes
all scenes under `basePath`, then creates exactly `slideCount` entries named
"1".."slideCount" at `basePath`, and finally sets the active scene path to
`basePath ++ "/" ++ k`; when the room reports anything else, it only sets the
active scene path. -/
theorem syncSceneWithSlide_all_or_nothing
    (spt : String → ScenePathType) (N k : Nat) (basePath : String) :
    (spt (basePath ++ "/" ++ toString k) = ScenePathType.none →
      syncSceneWithSlide spt
          { slideCount := N, currentSlideIndex := Option.some k } basePath =
        [RoomAction.removeScenes basePath,
         RoomAction.putScenes basePath (sceneNames N),
         RoomAction.setScenePath (basePath ++ "/" ++ toString k)] ∧
      (sceneNames N).length = N ∧
      (∀ j : Fin (sceneNames N).length,
        (sceneNames N).get j = toString (j.val + 1))) ∧
    (spt (basePath ++ "/" ++ toString k) ≠ ScenePathType.none →
      syncSceneWithSlide spt
          { slideCount := N, currentSlideIndex := Option.some k } basePath =
        [RoomAction.setScenePath (basePath ++ "/" ++ toString k)]) := by
  constructor
  · intro hnone
    refine ⟨?_, sceneNames_length N, sceneNames_get N⟩
    simp [syncSceneWithSlide, hnone]
  · intro hsome
    simp [syncSceneWithSlide, hsome]

/-- Witness for C2: a 2-page deck on page 1. A room answering `none`
everywhere gets the full repair sequence; a room answering `page` gets only
the scene-path switch. -/
theorem syncSceneWithSlide_all_or_nothing_witness :
    syncSceneWithSlide (fun _ => ScenePathType.none)
        { slideCount := 2, currentSlideIndex := Option.some 1 } "base" =
      [RoomAction.removeScenes "base",
       RoomAction.putScenes "base" (sceneNames 2),
       RoomAction.setScenePath ("base" ++ "/" ++ toString 1)] ∧
    syncSceneWithSlide (fun _ => ScenePathType.page)
        { slideCount := 2, currentSlideIndex := Option.some 1 } "base" =
      [RoomAction.setScenePath ("base" ++ "/" ++ toString 1)] :=
  ⟨((syncSceneWithSlide_all_or_nothing (fun _ => ScenePathType.none)
      2 1 "base").1 rfl).1,
   (syncSceneWithSlide_all_or_nothing (fun _ => ScenePathType.page)
      2 1 "base").2 (by decide)⟩

/-- Claim C8. Uninitialized-page no-op: when `currentSlideIndex` is
null/undefined, `syncSceneWithSlide` performs no room call at all — no
removal, no creation, no scene-path change. -/
theorem syncSceneWithSlide_null_page_noop
    (spt : String → ScenePathType) (N : Nat) (basePath : String) :
    syncSceneWithSlide spt
        { slideCount := N, currentSlideIndex := Option.none } basePath = [] :=
  rfl

/- ------------------------------------------------------------------ -/
/- Embedded page app (app-embedded-page/src/index.ts)                  -/
/- ------------------------------------------------------------------ -/

/-- A magix event as received by the listener: the event (channel) name, the
sender's `authorId`, and an opaque payload. -/
structure MagixEvent where
  event : String
  authorId : Int
  payload : String
  deriving DecidableEq, Repr

/-- A message the app posts into the embedded iframe via `postMessage`
(only the kind the magix listener can produce is needed here). -/
inductive SDKMessage where
  | receiveMagixMessage (payload : String)
  deriving DecidableEq, Repr

/-- The broadcast relay's inbound handler, as the list of messages it posts:

```ts
const magixListener = (e: Event) => {
  if (e.event === magixEventChannel && e.authorId !== displayer.observerId) {
    postMessage({ NEAType: "ReceiveMagixMessage", payload: e.payload });
  }
};
```
-/
def magixListener (magixEventChannel : String) (observerId : Int)
    (e : MagixEvent) : List SDKMessage :=
  if e.event = magixEventChannel ∧ e.authorId ≠ observerId then
    [SDKMessage.receiveMagixMessage e.payload]
  else []

/-- Claim C6. Loop prevention: an event whose `authorId` equals the local
observer identity is never delivered into the local receiver — the listener
posts no `ReceiveMagixMessage` for it, whatever the channel and payload. -/
theorem magixListener_filters_own_events (magixEventChannel : String)
    (observerId : Int) (ev : String) (payload : String) :
    magixListener magixEventChannel observerId
        { event := ev, authorId := observerId, payload := payload } = [] := by
  simp [magixListener]

/-- A JavaScript value as far as `setPage` inspects it: a string, or anything
that is not a string. -/
inductive JSValue where
  | str (s : String)
  | nonString
  deriving DecidableEq, Repr

/-- The context fields `setPage` reads: the write-permission flag, the result
of `getInitScenePath()` (`Option.none` embeds undefined), whether `room` is
present, and the room's `scenePathType` answer. -/
structure PageContext where
  isWritable : Bool
  initScenePath : Option String
  hasRoom : Bool
  scenePathType : String → ScenePathType

/-- A mutating call made by `setPage`, in order: scene creation, active
scene-path change, or persisting the page into the shared `page` attribute. -/
inductive PageAction where
  | putScenes (path : String) (names : List String)
  | setScenePath (path : String)
  | updatePageAttribute (page : String)
  deriving DecidableEq, Repr

/-- `setPage(page)` as the ordered list of mutating calls it performs (the
unconditional lazy `createWhiteBoardView` is not a scene/attribute mutation
and is left out):

```ts
const setPage = (page: unknown): void => {
  whiteboard ||= context.createWhiteBoardView();
  const scenePath = context.getInitScenePath();
  if (typeof page === "string" && context.isWritable && scenePath && room) {
    const fullScenePath = [scenePath, page].join("/");
    if (room.scenePathType(fullScenePath) === "none") {
      room.putScenes(scenePath, [{ name: page }]);
    }
    context.setScenePath(fullScenePath);
    context.updateAttributes(["page"], page);
  }
};
```
-/
def setPage (ctx : PageContext) (page : JSValue) : List PageAction :=
  match page, ctx.initScenePath with
  | JSValue.str s, Option.some scenePath =>
    if ctx.isWritable = true ∧ scenePath ≠ "" ∧ ctx.hasRoom = true then
      let fullScenePath := scenePath ++ "/" ++ s
      (if ctx.scenePathType fullScenePath = ScenePathType.none then
        [PageAction.putScenes scenePath [s]]
      else []) ++
      [PageAction.setScenePath fullScenePath,
       PageAction.updatePageAttribute s]
    else []
  | _, _ => []

/-- A context holding write permission and a room but whose
`getInitScenePath()` is undefined. -/
def noInitScenePathContext : PageContext :=
  { isWritable := true
    initScenePath := Option.none
    hasRoom := true
    scenePathType := fun _ => ScenePathType.none }

/-- Counterexample for C9 as stated: with write permission held and a string
page, `setPage` still performs no action at all when `getInitScenePath()` is
undefined, so the page value is not persisted, contrary to the claim's
positive half. -/
theorem setPage_claim_counterexample :
    noInitScenePathContext.isWritable = true ∧
    setPage noInitScenePathContext (JSValue.str "2") = [] :=
  ⟨rfl, rfl⟩

/-- Claim C9 (amended). Read-only observers never write: without write
permission or with a non-string page, `setPage` creates no scene, changes no
scene path and persists nothing; and when write permission is held, the page
is a string, the context has a non-empty init scene path and a room is
present, the page value is persisted and the missing scene entry (if the room
reports `none`) is created before the scene path is set. -/
theorem setPage_readonly_guard (ctx : PageContext) (page : JSValue) :
    ((ctx.isWritable = false ∨ page = JSValue.nonString) →
      setPage ctx page = []) ∧
    (∀ s scenePath, page = JSValue.str s →
      ctx.isWritable = true → ctx.initScenePath = Option.some scenePath →
      scenePath ≠ "" → ctx.hasRoom = true →
      setPage ctx page =
        (if ctx.scenePathType (scenePath ++ "/" ++ s) = ScenePathType.none
          then [PageAction.putScenes scenePath [s]] else []) ++
        [PageAction.setScenePath (scenePath ++ "/" ++ s),
         PageAction.updatePageAttribute s]) := by
  constructor
  · intro h
    rcases h with h | h
    · cases page with
      | str s =>
        cases hip : ctx.initScenePath with
        | none => simp [setPage, hip]
        | some scenePath => simp [setPage, hip, h]
      | nonString => simp [setPage]
    · subst h
      simp [setPage]
  · intro s scenePath hpage hw hip hne hroom
    subst hpage
    simp [setPage, hip, hw, hne, hroom]

/-- Witness for C9 (amended): a read-only context performs nothing; a
writable context with init scene path "dir" and a room reporting the entry
missing creates the scene, sets the path and persists the page, in order. -/
theorem setPage_readonly_guard_witness :
    setPage
        { isWritable := false
          initScenePath := Option.some "dir"
          hasRoom := true
          scenePathType := fun _ => ScenePathType.none }
        (JSValue.str "2") = [] ∧
    setPage
        { isWritable := true
          initScenePath := Option.some "dir"
          hasRoom := true
          scenePathType := fun _ => ScenePathType.none }
        (JSValue.str "2") =
      [PageAction.putScenes "dir" ["2"],
       PageAction.setScenePath ("dir" ++ "/" ++ "2"),
       PageAction.updatePageAttribute "2"] := by
  constructor
  · exact (setPage_readonly_guard
      { isWritable := false
        initScenePath := Option.some "dir"
        hasRoom := true
        scenePathType := fun _ => ScenePathType.none }
      (JSValue.str "2")).1 (Or.inl rfl)
  · have h := (setPage_readonly_guard
      { isWritable := true
        initScenePath := Option.some "dir"
        hasRoom := true
        scenePathType := fun _ => ScenePathType.none }
      (JSValue.str "2")).2 "2" "dir" rfl rfl rfl (by decide) rfl
    simpa using h

end NetlessApp
